import Mathlib

/-!
Shallow embedding of `run_claude_with_zen.py` (zen-mcp-server repository).

The script is a single-shot session orchestrator: it checks dependencies,
resolves environment credentials, best-effort starts a Redis service,
writes an ephemeral MCP configuration file, runs the `claude` client tool
and propagates its exit code, with a `cleanup` routine registered both as
an `atexit` hook and inside the SIGINT/SIGTERM handler.

The embedding models the script as a deterministic interpreter over a
`World` record that fixes every external outcome (which executables are
installed, which environment variables are set, whether the Redis probe
succeeds, the client exit code, whether a signal arrives during the client
run).  Running the interpreter produces a trace of observable events
(probe invocations, child-process spawns, warnings, config-file creation
and deletion, executions of the `cleanup` body) together with the final
process exit code and the final global process-handle state.
-/

namespace Zen

/-- Process environment as read by the script: `os.getenv` for the keys the
script consults, plus the values of `REDIS_HOST`/`REDIS_PORT` (present in the
process environment whether or not the script reads them) and the home
directory used by `os.path.expanduser` for the `WORKSPACE_ROOT` default. -/
structure Env where
  anthropicKey : Option String
  geminiKey : Option String
  openaiKey : Option String
  openrouterKey : Option String
  workspaceRoot : Option String
  redisHost : Option String
  redisPort : Option String
  homeDir : String
deriving DecidableEq, Repr

/-- A child process handle owned via a module-level global
(`mcp_process` / `redis_process`).  The one attribute `cleanup` observes is
whether the process exits within the `wait(timeout=5)` grace bound after
`terminate()`. -/
structure Proc where
  exitsWithinGrace : Bool
deriving DecidableEq, Repr

/-- The two module-level globals of the script (lines 22-24), both
initialised to `None`. -/
structure Globals where
  mcp_process : Option Proc
  redis_process : Option Proc
deriving DecidableEq, Repr

/-- `mcp_process = None`, `redis_process = None` (source lines 23-24). -/
def initGlobals : Globals := { mcp_process := none, redis_process := none }

/-- Which owned process a cleanup action targets. -/
inductive ProcId
  | mcp
  | redis
deriving DecidableEq, Repr

/-- One primitive action performed by the body of `cleanup`. -/
inductive CleanupAct
  | stopMsg (who : ProcId)
  | terminate (who : ProcId)
  | kill (who : ProcId)
deriving DecidableEq, Repr

/-- `Popen.wait(timeout=5)`: returns normally if the process exits within
the 5 second grace bound, otherwise raises `TimeoutExpired`. -/
def procWait5 (p : Proc) : Except String Unit :=
  if p.exitsWithinGrace then Except.ok () else Except.error "TimeoutExpired"

/-- The `try: wait(timeout=5) / except TimeoutExpired: kill()` block of
`cleanup` (source lines 33-36 and 41-44): the timeout error is caught and
answered with a forced kill; nothing propagates. -/
def tryWaitKill (who : ProcId) (p : Proc) : List CleanupAct :=
  match procWait5 p with
  | Except.ok _ => []
  | Except.error _ => [CleanupAct.kill who]

/-- The per-process portion of `cleanup`: print the stop message, send
`terminate()`, wait up to the grace bound, and kill only on timeout. -/
def stopActs (who : ProcId) (p : Proc) : List CleanupAct :=
  CleanupAct.stopMsg who :: CleanupAct.terminate who :: tryWaitKill who p

/-- The full action list of one execution of the `cleanup` body (source
lines 26-44): the `mcp_process` branch followed by the `redis_process`
branch; a `None` handle is skipped.  `cleanup` does not reset the globals,
so a later execution repeats the same actions. -/
def cleanupActs (g : Globals) : List CleanupAct :=
  (match g.mcp_process with
   | none => []
   | some p => stopActs ProcId.mcp p)
  ++
  (match g.redis_process with
   | none => []
   | some p => stopActs ProcId.redis p)

/-- `cleanup` viewed as a possibly-raising routine: each `wait` may raise
`TimeoutExpired`, but both raises are caught inside the body
(`tryWaitKill`), so the routine always returns `ok` to its caller. -/
def cleanupE (g : Globals) : Except String (List CleanupAct) := do
  let mcpActs ←
    match g.mcp_process with
    | none => pure []
    | some p =>
        match procWait5 p with
        | Except.ok _ => pure [CleanupAct.stopMsg ProcId.mcp, CleanupAct.terminate ProcId.mcp]
        | Except.error _ =>
            pure [CleanupAct.stopMsg ProcId.mcp, CleanupAct.terminate ProcId.mcp,
                  CleanupAct.kill ProcId.mcp]
  let redisActs ←
    match g.redis_process with
    | none => pure []
    | some p =>
        match procWait5 p with
        | Except.ok _ => pure [CleanupAct.stopMsg ProcId.redis, CleanupAct.terminate ProcId.redis]
        | Except.error _ =>
            pure [CleanupAct.stopMsg ProcId.redis, CleanupAct.terminate ProcId.redis,
                  CleanupAct.kill ProcId.redis]
  pure (mcpActs ++ redisActs)

/-- Observable events of a session. -/
inductive Event
  | probe (cmd : String)
  | spawnPip
  | spawnRedis (args : List String)
  | spawnClient (cmd : List String)
  | msgOut (s : String)
  | configCreated (command : String) (args : List String) (env : List (String × String))
  | configDeleted
  | cleanupBody (acts : List CleanupAct)
deriving DecidableEq, Repr

/-- Everything external that determines one run of the script. -/
structure World where
  argvPrompt : Option String
  argvWorkdir : Option String
  cwd : String
  pythonExe : String
  scriptDir : String
  tmpPath : String
  claudeOk : Bool
  redisServerOk : Bool
  python3Ok : Bool
  env : Env
  redisPingOk : Bool
  redisSpawnRaises : Bool
  redisReprobeOk : Bool
  redisExitsWithinGrace : Bool
  requirementsExists : Bool
  pipOk : Bool
  clientExit : Int
  signalDuringClient : Bool
deriving DecidableEq, Repr

/-- The `required` dict of `check_dependencies` (source lines 61-65). -/
def required : List (String × String) :=
  [("claude", "Claude Code CLI (npm install -g @anthropic-ai/claude-code)"),
   ("redis-server", "Redis server (apt-get install redis-server or brew install redis)"),
   ("python3", "Python 3.10+")]

/-- Outcome of the `[cmd, "--version"]` probe for each required executable. -/
def probeOk (w : World) : String → Bool
  | "claude" => w.claudeOk
  | "redis-server" => w.redisServerOk
  | _ => w.python3Ok

/-- `check_dependencies` (source lines 59-77): probes each required
executable, collects the missing ones, and returns whether execution
proceeds (`True`) or the script does `sys.exit(1)` (`False`). -/
def check_dependencies (w : World) : List Event × Bool :=
  let probes := required.map (fun d => Event.probe (d.1 ++ " --version"))
  let missing := required.filter (fun d => !probeOk w d.1)
  (probes, missing.isEmpty)

/-- `not any([gemini_key, openai_key, openrouter_key])` (source line 93). -/
def noProviderKeys (e : Env) : Bool :=
  e.geminiKey.isNone && e.openaiKey.isNone && e.openrouterKey.isNone

/-- `setup_environment` (source lines 79-108): `sys.exit(1)` when
`ANTHROPIC_API_KEY` is unset (`none` result); otherwise warns when no
optional provider key is present, resolves `WORKSPACE_ROOT` (defaulting to
the home directory) and writes it back into the environment. -/
def setup_environment (e : Env) : List Event × Option Env :=
  match e.anthropicKey with
  | none => ([Event.msgOut "ERROR: ANTHROPIC_API_KEY environment variable not set"], none)
  | some _ =>
      let warnEv :=
        if noProviderKeys e then [Event.msgOut "WARNING: No AI provider API keys found for Zen MCP"]
        else []
      let ws := e.workspaceRoot.getD e.homeDir
      (warnEv, some { e with workspaceRoot := some ws })

/-- `install_dependencies` (source lines 140-151): runs `pip install -r`
when `requirements.txt` exists; `check=True` means a pip failure raises
`CalledProcessError` (returned as `False`), which `main` does not catch. -/
def install_dependencies (w : World) : List Event × Bool :=
  if w.requirementsExists then ([Event.spawnPip], w.pipOk)
  else ([Event.msgOut "WARNING: requirements.txt not found, skipping dependency installation"], true)

/-- The argument vector of the Redis spawn (source line 125): the port is
the literal string `"6379"`; no environment variable is consulted. -/
def redisSpawnArgs : List String := ["redis-server", "--port", "6379"]

/-- The degraded-mode warning printed when Redis could not be started
(source line 138). -/
def redisWarning : String := "Some features may not work properly without Redis"

/-- `start_redis` (source lines 110-138): probe with `redis-cli ping`;
return immediately if it succeeds; otherwise spawn `redis-server`, record
the handle in the `redis_process` global, sleep, and re-probe; any
exception in the spawn/re-probe block is caught and answered with a
non-fatal warning. -/
def start_redis (w : World) (g : Globals) : List Event × Globals :=
  if w.redisPingOk then
    ([Event.probe "redis-cli ping"], g)
  else if w.redisSpawnRaises then
    ([Event.probe "redis-cli ping", Event.msgOut "Failed to start Redis",
      Event.msgOut redisWarning], g)
  else
    let g' := { g with redis_process := some { exitsWithinGrace := w.redisExitsWithinGrace } }
    if w.redisReprobeOk then
      ([Event.probe "redis-cli ping", Event.spawnRedis redisSpawnArgs,
        Event.probe "redis-cli ping"], g')
    else
      ([Event.probe "redis-cli ping", Event.spawnRedis redisSpawnArgs,
        Event.probe "redis-cli ping", Event.msgOut "Failed to start Redis",
        Event.msgOut redisWarning], g')

/-- The environment map embedded into the MCP configuration
(source lines 160-167): provider keys and workspace root from `os.getenv`
with `""` defaults, and the literal endpoint `localhost:6379`. -/
def mcpConfigEnv (e : Env) : List (String × String) :=
  [("GEMINI_API_KEY", e.geminiKey.getD ""),
   ("OPENAI_API_KEY", e.openaiKey.getD ""),
   ("OPENROUTER_API_KEY", e.openrouterKey.getD ""),
   ("WORKSPACE_ROOT", e.workspaceRoot.getD ""),
   ("REDIS_HOST", "localhost"),
   ("REDIS_PORT", "6379")]

/-- `create_mcp_config` (source lines 153-175): the single `zen` server
entry, `command = sys.executable`, `args = [zen_server_path/server.py]`,
and the environment map above. -/
def create_mcp_config (pythonExe zen_server_path : String) (e : Env) : Event :=
  Event.configCreated pythonExe [zen_server_path ++ "/server.py"] (mcpConfigEnv e)

/-- The hard-coded `--allowedTools` value (source line 182). -/
def allowedTools : String :=
  "mcp__zen__chat,mcp__zen__thinkdeep,mcp__zen__codereview,mcp__zen__precommit,mcp__zen__debug,mcp__zen__analyze"

/-- Python truthiness of the `working_dir` argument (`if working_dir:`,
source line 185): `None` and the empty string are falsy. -/
def truthy : Option String → Bool
  | none => false
  | some s => s ≠ ""

/-- The command vector built by `run_claude_code` (source lines 179-186). -/
def claudeCmd (prompt mcp_config_path : String) (working_dir : Option String) : List String :=
  ["claude", "-p", prompt, "--mcp-config", mcp_config_path, "--allowedTools", allowedTools]
  ++ (if truthy working_dir then ["--cwd", (working_dir.getD "")] else [])

/-- Result of the setup portion of `main` (source lines 198-231): either an
early exit (`usage`, missing dependency, missing credential, or an uncaught
pip failure) with the trace so far and the exit code, or the state at the
point just before `create_mcp_config`. -/
inductive SetupOutcome
  | earlyExit (tr : List Event) (code : Int)
  | proceed (tr : List Event) (e : Env) (g : Globals) (prompt : String) (working_dir : String)
deriving DecidableEq, Repr

/-- Lines 198-224 of `main`: argv check, `check_dependencies`,
`setup_environment`, `install_dependencies`, `start_redis`. -/
def setupPhase (w : World) : SetupOutcome :=
  match w.argvPrompt with
  | none => SetupOutcome.earlyExit [] 1
  | some prompt =>
      let working_dir := w.argvWorkdir.getD w.cwd
      let dep := check_dependencies w
      if !dep.2 then SetupOutcome.earlyExit dep.1 1
      else
        match setup_environment w.env with
        | (envEv, none) => SetupOutcome.earlyExit (dep.1 ++ envEv) 1
        | (envEv, some e) =>
            let pip := install_dependencies w
            if !pip.2 then SetupOutcome.earlyExit (dep.1 ++ envEv ++ pip.1) 1
            else
              let redis := start_redis w initGlobals
              SetupOutcome.proceed (dep.1 ++ envEv ++ pip.1 ++ redis.1) e redis.2 prompt working_dir

/-- The body of `main` (source lines 196-250): after setup, create the MCP
config, then `try: run_claude_code ... finally: unlink(config)`.  A
SIGINT/SIGTERM during the blocking client run executes the signal handler
(one `cleanup` body, then `sys.exit(0)`); the `SystemExit` unwinds through
the `finally`, which deletes the config file.  Without a signal, a non-zero
client exit code is re-raised via `sys.exit(exit_code)` and a zero code
falls off the end of `main`; either way the `finally` deletes the config
and the process exit code equals the client exit code.  Returns the trace,
the interpreter exit code, and the globals as they stand at interpreter
exit. -/
def mainRun (w : World) : List Event × Int × Globals :=
  match setupPhase w with
  | SetupOutcome.earlyExit tr c => (tr, c, initGlobals)
  | SetupOutcome.proceed tr e g prompt working_dir =>
      let cfg := create_mcp_config w.pythonExe w.scriptDir e
      let cmd := claudeCmd prompt w.tmpPath (some working_dir)
      if w.signalDuringClient then
        (tr ++ [cfg, Event.spawnClient cmd, Event.cleanupBody (cleanupActs g),
                Event.configDeleted], 0, g)
      else
        (tr ++ [cfg, Event.spawnClient cmd, Event.configDeleted], w.clientExit, g)

/-- A complete process run: `main` followed by the `atexit` hook
(source line 47), which executes the `cleanup` body once more at
interpreter exit — `atexit` handlers run both on normal return and on
`sys.exit`, and `cleanup` carries no has-already-run flag. -/
def processRun (w : World) : List Event × Int :=
  match mainRun w with
  | (tr, c, g) => (tr ++ [Event.cleanupBody (cleanupActs g)], c)

/-- Globals at interpreter exit (what the `atexit` `cleanup` sees). -/
def globalsAtExit (w : World) : Globals := (mainRun w).2.2

/-- Number of events in a trace satisfying a predicate. -/
def countE (p : Event → Bool) (tr : List Event) : Nat := (tr.filter p).length

def isCleanupBody : Event → Bool
  | Event.cleanupBody _ => true
  | _ => false

/-- Number of executions of the `cleanup` body in a trace. -/
def cleanupCount (tr : List Event) : Nat := countE isCleanupBody tr

/-- Child-process spawn events: pip, the Redis server, the client tool.
Version/liveness probes (`Event.probe`) are the dependency checks the spec
explicitly permits before the abort. -/
def isChildSpawn : Event → Bool
  | Event.spawnPip => true
  | Event.spawnRedis _ => true
  | Event.spawnClient _ => true
  | _ => false

/-- Number of child processes spawned in a trace. -/
def childSpawnCount (tr : List Event) : Nat := countE isChildSpawn tr

def isDelete : Event → Bool
  | Event.configDeleted => true
  | _ => false

def isClientSpawn : Event → Bool
  | Event.spawnClient _ => true
  | _ => false

def isCreate : Event → Bool
  | Event.configCreated _ _ _ => true
  | _ => false

/-- Number of deletions of the config artifact in a trace. -/
def deleteCount (tr : List Event) : Nat := countE isDelete tr

/-- Events that can occur during the setup phase: probes, prints,
pip/Redis spawns.  In particular no config creation/deletion, no client
spawn, no `cleanup` execution. -/
def preEvent : Event → Bool
  | Event.probe _ => true
  | Event.msgOut _ => true
  | Event.spawnPip => true
  | Event.spawnRedis _ => true
  | _ => false

/-- All three version probes succeed. -/
def depsOkB (w : World) : Bool := w.claudeOk && w.redisServerOk && w.python3Ok

/-- The run reaches the client launch: a prompt was given, dependencies are
present, the mandatory credential is set, and pip did not fail. -/
def reachesClientB (w : World) : Bool :=
  w.argvPrompt.isSome && depsOkB w && w.env.anthropicKey.isSome
    && (!w.requirementsExists || w.pipOk)

/-- Modelled from the spec: spec sections 3 and 6 describe a
ServiceEndpoint with a fixed default host/port that environment-supplied
overrides replace.
The script itself never reads `REDIS_HOST`/`REDIS_PORT` from the
environment, so the overridable endpoint exists only in the spec; this
definition follows the spec wording (default endpoint `localhost:6379`,
overridden by the environment values when present). -/
def specServiceEndpoint (e : Env) : String × String :=
  (e.redisHost.getD "localhost", e.redisPort.getD "6379")

/-- A concrete environment: mandatory credential set, no optional provider
keys, no overrides. -/
def exEnv : Env :=
  { anthropicKey := some "sk-test", geminiKey := none, openaiKey := none,
    openrouterKey := none, workspaceRoot := none, redisHost := none,
    redisPort := none, homeDir := "/home/user" }

/-- A concrete baseline world: everything installed, credential set, Redis
already live, no signal, client exits 0. -/
def baseWorld : World :=
  { argvPrompt := some "review this code", argvWorkdir := none, cwd := "/proj",
    pythonExe := "/usr/bin/python3", scriptDir := "/zen", tmpPath := "/tmp/cfg.json",
    claudeOk := true, redisServerOk := true, python3Ok := true,
    env := exEnv, redisPingOk := true, redisSpawnRaises := false,
    redisReprobeOk := true, redisExitsWithinGrace := true,
    requirementsExists := false, pipOk := true,
    clientExit := 0, signalDuringClient := false }

/-- The baseline world with a SIGINT arriving while the client runs. -/
def sigWorld : World := { baseWorld with signalDuringClient := true }

section CountLemmas

theorem countE_nil (p : Event → Bool) : countE p [] = 0 := rfl

theorem countE_cons (p : Event → Bool) (a : Event) (tr : List Event) :
    countE p (a :: tr) = (if p a then 1 else 0) + countE p tr := by
  by_cases h : p a <;> simp [countE, List.filter_cons, h, Nat.add_comm]

theorem countE_append (p : Event → Bool) (l1 l2 : List Event) :
    countE p (l1 ++ l2) = countE p l1 + countE p l2 := by
  simp [countE, List.filter_append]

theorem countE_pre_zero (p : Event → Bool) (hp : ∀ ev, preEvent ev = true → p ev = false)
    (tr : List Event) (h : ∀ ev ∈ tr, preEvent ev = true) : countE p tr = 0 := by
  induction tr with
  | nil => rfl
  | cons a l ih =>
      rw [countE_cons, hp a (h a (by simp))]
      simpa using ih (fun ev hev => h ev (by simp [hev]))

theorem pre_not_cleanupBody (ev : Event) (h : preEvent ev = true) : isCleanupBody ev = false := by
  cases ev <;> simp_all [preEvent, isCleanupBody]

theorem pre_not_delete (ev : Event) (h : preEvent ev = true) : isDelete ev = false := by
  cases ev <;> simp_all [preEvent, isDelete]

theorem pre_not_create (ev : Event) (h : preEvent ev = true) : isCreate ev = false := by
  cases ev <;> simp_all [preEvent, isCreate]

end CountLemmas

section ComponentLemmas

theorem check_dependencies_snd (w : World) : (check_dependencies w).2 = depsOkB w := by
  rcases w with ⟨ap, aw, cwd, py, sd, tp, c1, c2, c3, e, rp, rs, rr, rg, rq, po, ce, sg⟩
  cases c1 <;> cases c2 <;> cases c3 <;> rfl

theorem check_dependencies_pre (w : World) :
    ∀ ev ∈ (check_dependencies w).1, preEvent ev = true := by
  intro ev hev
  simp [check_dependencies, required] at hev
  rcases hev with h | h | h <;> simp [h, preEvent]

theorem setup_environment_isSome (e : Env) :
    (setup_environment e).2.isSome = e.anthropicKey.isSome := by
  cases h : e.anthropicKey <;> simp [setup_environment, h]

theorem setup_environment_pre (e : Env) :
    ∀ ev ∈ (setup_environment e).1, preEvent ev = true := by
  intro ev hev
  cases h : e.anthropicKey <;> simp [setup_environment, h] at hev
  · simp [hev, preEvent]
  · rcases hev with ⟨-, hev⟩
    simp [hev, preEvent]

theorem install_dependencies_snd (w : World) :
    (install_dependencies w).2 = (!w.requirementsExists || w.pipOk) := by
  cases h : w.requirementsExists <;> simp [install_dependencies, h]

theorem install_dependencies_pre (w : World) :
    ∀ ev ∈ (install_dependencies w).1, preEvent ev = true := by
  intro ev hev
  cases h : w.requirementsExists <;> simp [install_dependencies, h] at hev <;>
    simp [hev, preEvent]

theorem start_redis_pre (w : World) (g : Globals) :
    ∀ ev ∈ (start_redis w g).1, preEvent ev = true := by
  intro ev hev
  cases h1 : w.redisPingOk <;> cases h2 : w.redisSpawnRaises <;> cases h3 : w.redisReprobeOk <;>
    simp [start_redis, h1, h2, h3] at hev <;>
    cases ev <;> simp_all [preEvent]

end ComponentLemmas

section SetupPhaseLemmas

/-- The setup-phase trace of a run that reaches the client launch. -/
def setupTrace (w : World) : List Event :=
  (check_dependencies w).1 ++ (setup_environment w.env).1
    ++ (install_dependencies w).1 ++ (start_redis w initGlobals).1

theorem setupTrace_pre (w : World) : ∀ ev ∈ setupTrace w, preEvent ev = true := by
  intro ev hev
  simp only [setupTrace, List.mem_append] at hev
  rcases hev with ((h | h) | h) | h
  · exact check_dependencies_pre w ev h
  · exact setup_environment_pre w.env ev h
  · exact install_dependencies_pre w ev h
  · exact start_redis_pre w initGlobals ev h

theorem setupPhase_of_reaches (w : World) (hr : reachesClientB w = true) :
    ∃ prompt e, w.argvPrompt = some prompt ∧
      setupPhase w = SetupOutcome.proceed (setupTrace w) e ((start_redis w initGlobals).2)
        prompt (w.argvWorkdir.getD w.cwd) := by
  simp only [reachesClientB, Bool.and_eq_true] at hr
  obtain ⟨⟨⟨hap, hdeps⟩, hak⟩, hpip⟩ := hr
  obtain ⟨prompt, hp⟩ := Option.isSome_iff_exists.mp hap
  have hse : (setup_environment w.env).2.isSome := by
    rw [setup_environment_isSome]; exact hak
  obtain ⟨e, he⟩ := Option.isSome_iff_exists.mp hse
  have hsplit : setup_environment w.env = ((setup_environment w.env).1, some e) := by
    rw [← he]
  have hd2 : (check_dependencies w).2 = true := by rw [check_dependencies_snd]; exact hdeps
  have hi2 : (install_dependencies w).2 = true := by rw [install_dependencies_snd]; exact hpip
  refine ⟨prompt, e, hp, ?_⟩
  unfold setupPhase
  rw [hp, hsplit]
  simp [hd2, hi2, setupTrace]

theorem setupPhase_not_reaches (w : World) (hr : reachesClientB w = false) :
    ∃ tr, setupPhase w = SetupOutcome.earlyExit tr 1 ∧ ∀ ev ∈ tr, preEvent ev = true := by
  cases hp : w.argvPrompt with
  | none =>
      refine ⟨[], ?_, by simp⟩
      unfold setupPhase
      rw [hp]
  | some prompt =>
      cases hd2 : (check_dependencies w).2 with
      | false =>
          refine ⟨(check_dependencies w).1, ?_, check_dependencies_pre w⟩
          unfold setupPhase
          rw [hp]
          simp [hd2]
      | true =>
          cases he2 : (setup_environment w.env).2 with
          | none =>
              refine ⟨(check_dependencies w).1 ++ (setup_environment w.env).1, ?_, ?_⟩
              · have hsplit : setup_environment w.env = ((setup_environment w.env).1, none) := by
                  rw [← he2]
                unfold setupPhase
                rw [hp, hsplit]
                simp [hd2]
              · intro ev hev
                rcases List.mem_append.mp hev with h | h
                · exact check_dependencies_pre w ev h
                · exact setup_environment_pre w.env ev h
          | some e =>
              cases hi2 : (install_dependencies w).2 with
              | false =>
                  refine ⟨(check_dependencies w).1 ++ (setup_environment w.env).1
                    ++ (install_dependencies w).1, ?_, ?_⟩
                  · have hsplit : setup_environment w.env
                        = ((setup_environment w.env).1, some e) := by
                      rw [← he2]
                    unfold setupPhase
                    rw [hp, hsplit]
                    simp [hd2, hi2]
                  · intro ev hev
                    rcases List.mem_append.mp hev with h | h
                    · rcases List.mem_append.mp h with h2 | h2
                      · exact check_dependencies_pre w ev h2
                      · exact setup_environment_pre w.env ev h2
                    · exact install_dependencies_pre w ev h
              | true =>
                  exfalso
                  have : reachesClientB w = true := by
                    simp only [reachesClientB, Bool.and_eq_true]
                    refine ⟨⟨⟨by simp [hp], ?_⟩, ?_⟩, ?_⟩
                    · rw [← check_dependencies_snd]; exact hd2
                    · rw [← setup_environment_isSome, he2]; rfl
                    · rw [← install_dependencies_snd]; exact hi2
                  rw [this] at hr
                  exact absurd hr (by simp)

end SetupPhaseLemmas

section McpUnreachable

/-- Does a cleanup action target the MCP-server process? -/
def actTargetsMcp : CleanupAct → Bool
  | CleanupAct.stopMsg ProcId.mcp => true
  | CleanupAct.terminate ProcId.mcp => true
  | CleanupAct.kill ProcId.mcp => true
  | _ => false

/-- Does an event include any cleanup action against the MCP-server
process? -/
def evStopsMcp : Event → Bool
  | Event.cleanupBody acts => acts.any actTargetsMcp
  | _ => false

/-- Does a trace ever terminate/kill/report the MCP-server process? -/
def traceStopsMcp (tr : List Event) : Bool := tr.any evStopsMcp

theorem any_pre_false (p : Event → Bool) (hp : ∀ ev, preEvent ev = true → p ev = false)
    (tr : List Event) (h : ∀ ev ∈ tr, preEvent ev = true) : tr.any p = false := by
  induction tr with
  | nil => rfl
  | cons a l ih =>
      rw [List.any_cons, hp a (h a (by simp))]
      simpa using ih (fun ev hev => h ev (by simp [hev]))

theorem pre_not_stopsMcp (ev : Event) (h : preEvent ev = true) : evStopsMcp ev = false := by
  cases ev <;> simp_all [preEvent, evStopsMcp]

theorem stopActs_redis_not_mcp (p : Proc) :
    (stopActs ProcId.redis p).any actTargetsMcp = false := by
  rcases p with ⟨b⟩
  cases b <;> rfl

theorem cleanupActs_no_mcp (g : Globals) (h : g.mcp_process = none) :
    (cleanupActs g).any actTargetsMcp = false := by
  rcases g with ⟨m, r⟩
  cases m with
  | none =>
      cases r with
      | none => rfl
      | some p => rcases p with ⟨b⟩; cases b <;> rfl
  | some p => simp at h

theorem start_redis_mcp (w : World) (g : Globals) :
    ((start_redis w g).2).mcp_process = g.mcp_process := by
  cases h1 : w.redisPingOk <;> cases h2 : w.redisSpawnRaises <;>
    cases h3 : w.redisReprobeOk <;> simp [start_redis, h1, h2, h3]

end McpUnreachable

/-- C1: counterexample.  The claim says the teardown body is protected by
a one-time-execution guard, so a signal-triggered invocation followed by
the process-exit hook yields exactly one execution.  In the code `cleanup`
has no guard: in the concrete world `sigWorld` (a SIGINT arrives during
the client run) the signal handler executes the body once and the `atexit`
hook executes it again, for two executions, refuting "at most once". -/
theorem cleanup_twice_on_signal_then_exit :
    ¬ (cleanupCount (processRun sigWorld).1 ≤ 1) := by
  decide

/-- C1: amended claim.  The `cleanup` body is unguarded and runs once per
trigger: the `atexit` hook fires on every run (contributing one
execution), and a signal arriving during the client run adds one more via
the signal handler, so a run with a signal executes the body exactly twice
and any other run exactly once. -/
theorem cleanup_runs_once_per_trigger (w : World) :
    cleanupCount (processRun w).1 =
      if reachesClientB w && w.signalDuringClient then 2 else 1 := by
  cases hr : reachesClientB w with
  | false =>
      obtain ⟨tr, hsp, hpre⟩ := setupPhase_not_reaches w hr
      have h0 : countE isCleanupBody tr = 0 :=
        countE_pre_zero _ pre_not_cleanupBody tr hpre
      simp [processRun, mainRun, hsp, cleanupCount, countE_append, countE_cons,
        countE_nil, isCleanupBody, h0]
  | true =>
      obtain ⟨prompt, e, hp, hsp⟩ := setupPhase_of_reaches w hr
      have h0 : countE isCleanupBody (setupTrace w) = 0 :=
        countE_pre_zero _ pre_not_cleanupBody _ (setupTrace_pre w)
      cases hs : w.signalDuringClient <;>
        simp [processRun, mainRun, hsp, hs, cleanupCount, countE_append, countE_cons,
          countE_nil, isCleanupBody, h0, create_mcp_config]

/-- C2: when a required executable is missing or `ANTHROPIC_API_KEY` is
unset, the process exits with code 1 and no child process is spawned (the
version/liveness probes of the dependency check are the only subprocess
invocations, and they precede the abort). -/
theorem early_abort_exit1_no_spawn (w : World)
    (h : depsOkB w = false ∨ w.env.anthropicKey = none) :
    (processRun w).2 = 1 ∧ childSpawnCount (processRun w).1 = 0 := by
  cases hp : w.argvPrompt with
  | none =>
      have hsp : setupPhase w = SetupOutcome.earlyExit [] 1 := by
        unfold setupPhase; rw [hp]
      constructor <;>
        simp [processRun, mainRun, hsp, childSpawnCount, countE_cons,
          countE_nil, isChildSpawn, cleanupActs, initGlobals]
  | some prompt =>
      have hdep : (check_dependencies w).2 = false →
          (processRun w).2 = 1 ∧ childSpawnCount (processRun w).1 = 0 := by
        intro hd2
        have hsp : setupPhase w = SetupOutcome.earlyExit (check_dependencies w).1 1 := by
          unfold setupPhase; rw [hp]; simp [hd2]
        constructor <;>
          simp [processRun, mainRun, hsp, check_dependencies, required, childSpawnCount,
            countE_append, countE_cons, countE_nil, isChildSpawn, cleanupActs, initGlobals]
      rcases h with hdeps | hak
      · exact hdep (by rw [check_dependencies_snd]; exact hdeps)
      · cases hd2 : (check_dependencies w).2 with
        | false => exact hdep hd2
        | true =>
            have hse : setup_environment w.env =
                ([Event.msgOut "ERROR: ANTHROPIC_API_KEY environment variable not set"],
                  none) := by
              simp [setup_environment, hak]
            have hsp : setupPhase w = SetupOutcome.earlyExit
                ((check_dependencies w).1
                  ++ [Event.msgOut "ERROR: ANTHROPIC_API_KEY environment variable not set"])
                1 := by
              unfold setupPhase; rw [hp, hse]; simp [hd2]
            constructor <;>
              simp [processRun, mainRun, hsp, check_dependencies, required,
                childSpawnCount, countE_append, countE_cons, countE_nil,
                isChildSpawn, cleanupActs, initGlobals]

/-- C2 witness: in `baseWorld` with the mandatory credential removed the
process exits with code 1 and spawns zero child processes. -/
theorem early_abort_exit1_no_spawn_witness :
    (depsOkB { baseWorld with env := { exEnv with anthropicKey := none } } = false ∨
      ({ baseWorld with env := { exEnv with anthropicKey := none } } : World).env.anthropicKey
        = none) ∧
    (processRun { baseWorld with env := { exEnv with anthropicKey := none } }).2 = 1 ∧
    childSpawnCount
      (processRun { baseWorld with env := { exEnv with anthropicKey := none } }).1 = 0 :=
  ⟨Or.inr rfl, early_abort_exit1_no_spawn _ (Or.inr rfl)⟩

/-- C3: a session that reaches the client launch and is not interrupted
exits with exactly the client exit code, zero or not. -/
theorem client_exit_code_propagated (w : World) (hr : reachesClientB w = true)
    (hs : w.signalDuringClient = false) :
    (processRun w).2 = w.clientExit := by
  obtain ⟨prompt, e, hp, hsp⟩ := setupPhase_of_reaches w hr
  simp [processRun, mainRun, hsp, hs]

/-- C3 witness: in `baseWorld` with the client returning 3, the process
exits with 3. -/
theorem client_exit_code_propagated_witness :
    reachesClientB { baseWorld with clientExit := 3 } = true ∧
    ({ baseWorld with clientExit := 3 } : World).signalDuringClient = false ∧
    (processRun { baseWorld with clientExit := 3 }).2 = 3 :=
  ⟨rfl, rfl, client_exit_code_propagated { baseWorld with clientExit := 3 } rfl rfl⟩

/-- C4: whenever the config artifact is created, the trace contains exactly
one deletion of it, the deletion comes after the client spawn (the launch
has finished using the artifact, since the interpreter is sequential), and
this holds on every exit path — normal success, client-failure exit, and
the interruption path — all covered by the universally quantified world. -/
theorem config_deleted_once_after_client (w : World)
    (h : ∃ c a en, Event.configCreated c a en ∈ (processRun w).1) :
    ∃ l1 l2, (processRun w).1 = l1 ++ Event.configDeleted :: l2 ∧
      l1.any isClientSpawn = true ∧ deleteCount l1 = 0 ∧ deleteCount l2 = 0 := by
  cases hr : reachesClientB w with
  | false =>
      exfalso
      obtain ⟨tr, hsp, hpre⟩ := setupPhase_not_reaches w hr
      obtain ⟨c, a, en, hmem⟩ := h
      rw [show (processRun w).1 = tr ++ [Event.cleanupBody (cleanupActs initGlobals)] from by
        simp [processRun, mainRun, hsp]] at hmem
      rcases List.mem_append.mp hmem with hm | hm
      · have := hpre _ hm
        simp [preEvent] at this
      · simp at hm
  | true =>
      obtain ⟨prompt, e, hp, hsp⟩ := setupPhase_of_reaches w hr
      have hd0 : countE isDelete (setupTrace w) = 0 :=
        countE_pre_zero _ pre_not_delete _ (setupTrace_pre w)
      cases hs : w.signalDuringClient with
      | false =>
          refine ⟨setupTrace w ++ [create_mcp_config w.pythonExe w.scriptDir e,
              Event.spawnClient (claudeCmd prompt w.tmpPath (some (w.argvWorkdir.getD w.cwd)))],
            [Event.cleanupBody (cleanupActs (start_redis w initGlobals).2)], ?_, ?_, ?_, ?_⟩
          · simp [processRun, mainRun, hsp, hs]
          · simp [List.any_append, isClientSpawn]
          · simp [deleteCount, countE_append, countE_cons, countE_nil, isDelete, hd0,
              create_mcp_config]
          · simp [deleteCount, countE_cons, countE_nil, isDelete]
      | true =>
          refine ⟨setupTrace w ++ [create_mcp_config w.pythonExe w.scriptDir e,
              Event.spawnClient (claudeCmd prompt w.tmpPath (some (w.argvWorkdir.getD w.cwd))),
              Event.cleanupBody (cleanupActs (start_redis w initGlobals).2)],
            [Event.cleanupBody (cleanupActs (start_redis w initGlobals).2)], ?_, ?_, ?_, ?_⟩
          · simp [processRun, mainRun, hsp, hs]
          · simp [List.any_append, isClientSpawn]
          · simp [deleteCount, countE_append, countE_cons, countE_nil, isDelete, hd0,
              create_mcp_config]
          · simp [deleteCount, countE_cons, countE_nil, isDelete]

/-- C4 witness: in `baseWorld` the config artifact is created and the
conclusion holds. -/
theorem config_deleted_once_after_client_witness :
    (∃ c a en, Event.configCreated c a en ∈ (processRun baseWorld).1) ∧
    (∃ l1 l2, (processRun baseWorld).1 = l1 ++ Event.configDeleted :: l2 ∧
      l1.any isClientSpawn = true ∧ deleteCount l1 = 0 ∧ deleteCount l2 = 0) := by
  have hmem : Event.configCreated "/usr/bin/python3" ["/zen/server.py"]
      [("GEMINI_API_KEY", ""), ("OPENAI_API_KEY", ""), ("OPENROUTER_API_KEY", ""),
       ("WORKSPACE_ROOT", "/home/user"), ("REDIS_HOST", "localhost"), ("REDIS_PORT", "6379")]
      ∈ (processRun baseWorld).1 := by decide
  exact ⟨⟨_, _, _, hmem⟩, config_deleted_once_after_client baseWorld ⟨_, _, _, hmem⟩⟩

/-- The environment of `overrideEnv` carries `REDIS_HOST`/`REDIS_PORT`
override values that the script never reads. -/
def overrideEnv : Env :=
  { exEnv with redisHost := some "redis.internal", redisPort := some "7000" }

/-- C5: counterexample.  The claim says environment-supplied host/port
overrides are read and used in place of the defaults when embedding the
endpoint into the configuration artifact.  With `REDIS_PORT=7000` and
`REDIS_HOST=redis.internal` in the environment, the spec-modelled
overridable endpoint is `(redis.internal, 7000)`, but the config written
by `create_mcp_config` still carries the literals `localhost`/`6379`:
the overrides are ignored. -/
theorem endpoint_override_ignored :
    ¬ ((mcpConfigEnv overrideEnv).lookup "REDIS_HOST"
          = some (specServiceEndpoint overrideEnv).1 ∧
       (mcpConfigEnv overrideEnv).lookup "REDIS_PORT"
          = some (specServiceEndpoint overrideEnv).2) := by
  decide

/-- C5: amended claim.  The service endpoint is the fixed constant
`localhost:6379`: the config artifact embeds exactly those literals for
every environment, and the Redis spawn argument vector is the constant
`["redis-server", "--port", "6379"]`; no environment override is
consulted. -/
theorem endpoint_fixed_constant (e : Env) :
    (mcpConfigEnv e).lookup "REDIS_HOST" = some "localhost" ∧
    (mcpConfigEnv e).lookup "REDIS_PORT" = some "6379" ∧
    redisSpawnArgs = ["redis-server", "--port", "6379"] :=
  ⟨rfl, rfl, rfl⟩

/-- C6: when the initial `redis-cli ping` liveness probe succeeds,
`start_redis` returns immediately with only the probe in its trace: no
`redis-server` process is spawned and the globals are unchanged. -/
theorem start_redis_idempotent_when_live (w : World) (g : Globals)
    (h : w.redisPingOk = true) :
    start_redis w g = ([Event.probe "redis-cli ping"], g) ∧
    (∀ args, Event.spawnRedis args ∉ (start_redis w g).1) ∧
    (start_redis w g).2 = g := by
  have he : start_redis w g = ([Event.probe "redis-cli ping"], g) := by
    simp [start_redis, h]
  refine ⟨he, ?_, by rw [he]⟩
  intro args
  rw [he]
  simp

/-- C6 witness: in `baseWorld` Redis is already live and `start_redis`
spawns nothing. -/
theorem start_redis_idempotent_when_live_witness :
    baseWorld.redisPingOk = true ∧
    start_redis baseWorld initGlobals = ([Event.probe "redis-cli ping"], initGlobals) :=
  ⟨rfl, (start_redis_idempotent_when_live baseWorld initGlobals rfl).1⟩

/-- C7: a Redis start failure is non-fatal: when the initial probe fails
and either the spawn raises or the re-probe after the bounded wait fails,
the session prints the degraded-mode warning and still creates the config
artifact and launches the client. -/
theorem redis_failure_nonfatal (w : World) (hr : reachesClientB w = true)
    (hping : w.redisPingOk = false)
    (hfail : w.redisSpawnRaises = true ∨ w.redisReprobeOk = false) :
    Event.msgOut redisWarning ∈ (processRun w).1 ∧
    (∃ c a en, Event.configCreated c a en ∈ (processRun w).1) ∧
    (∃ cmd, Event.spawnClient cmd ∈ (processRun w).1) := by
  obtain ⟨prompt, e, hp, hsp⟩ := setupPhase_of_reaches w hr
  have hwarn : Event.msgOut redisWarning ∈ (start_redis w initGlobals).1 := by
    rcases hfail with h1 | h1
    · simp [start_redis, hping, h1]
    · cases h2 : w.redisSpawnRaises <;> simp [start_redis, hping, h1, h2]
  have hA : Event.msgOut redisWarning ∈ setupTrace w := by
    exact List.mem_append_right _ hwarn
  have htr : ∃ rest, (processRun w).1 = setupTrace w
      ++ (create_mcp_config w.pythonExe w.scriptDir e
          :: Event.spawnClient (claudeCmd prompt w.tmpPath (some (w.argvWorkdir.getD w.cwd)))
          :: rest) := by
    cases hs : w.signalDuringClient with
    | false =>
        exact ⟨[Event.configDeleted,
          Event.cleanupBody (cleanupActs (start_redis w initGlobals).2)],
          by simp [processRun, mainRun, hsp, hs]⟩
    | true =>
        exact ⟨[Event.cleanupBody (cleanupActs (start_redis w initGlobals).2),
          Event.configDeleted,
          Event.cleanupBody (cleanupActs (start_redis w initGlobals).2)],
          by simp [processRun, mainRun, hsp, hs]⟩
  obtain ⟨rest, htr⟩ := htr
  rw [htr]
  refine ⟨List.mem_append_left _ hA, ?_, ?_⟩
  · refine ⟨w.pythonExe, [w.scriptDir ++ "/server.py"], mcpConfigEnv e, ?_⟩
    exact List.mem_append_right _ (by simp [create_mcp_config])
  · refine ⟨claudeCmd prompt w.tmpPath (some (w.argvWorkdir.getD w.cwd)), ?_⟩
    exact List.mem_append_right _ (by simp)

/-- C7 witness: everything installed but Redis down and not restartable —
the warning is printed and the client still runs. -/
theorem redis_failure_nonfatal_witness :
    Event.msgOut redisWarning
      ∈ (processRun { baseWorld with redisPingOk := false, redisReprobeOk := false }).1 ∧
    (∃ c a en, Event.configCreated c a en
      ∈ (processRun { baseWorld with redisPingOk := false, redisReprobeOk := false }).1) ∧
    (∃ cmd, Event.spawnClient cmd
      ∈ (processRun { baseWorld with redisPingOk := false, redisReprobeOk := false }).1) :=
  redis_failure_nonfatal { baseWorld with redisPingOk := false, redisReprobeOk := false }
    rfl rfl (Or.inr rfl)

/-- C8: for every owned child process, teardown prints the stop message,
sends `terminate()`, and appends a forced `kill()` exactly when the
bounded `wait(timeout=5)` elapses without the process exiting; the
actions of each owned process appear in the cleanup body, and the routine
never raises to its caller (the only raising call, `wait`, is caught). -/
theorem cleanup_graceful_then_kill_never_raises (g : Globals) :
    (cleanupE g).isOk = true ∧
    (∀ who p, (p.exitsWithinGrace = true →
        stopActs who p = [CleanupAct.stopMsg who, CleanupAct.terminate who]) ∧
      (p.exitsWithinGrace = false →
        stopActs who p
          = [CleanupAct.stopMsg who, CleanupAct.terminate who, CleanupAct.kill who]) ∧
      (CleanupAct.kill who ∈ stopActs who p ↔ p.exitsWithinGrace = false)) ∧
    (∀ p, g.redis_process = some p →
        ∀ a ∈ stopActs ProcId.redis p, a ∈ cleanupActs g) ∧
    (∀ p, g.mcp_process = some p →
        ∀ a ∈ stopActs ProcId.mcp p, a ∈ cleanupActs g) := by
  refine ⟨?_, ?_, ?_, ?_⟩
  · rcases g with ⟨m, r⟩
    cases m with
    | none =>
        cases r with
        | none => rfl
        | some p => rcases p with ⟨b⟩; cases b <;> rfl
    | some p =>
        rcases p with ⟨b⟩
        cases r with
        | none => cases b <;> rfl
        | some q => rcases q with ⟨b2⟩; cases b <;> cases b2 <;> rfl
  · intro who p
    rcases p with ⟨b⟩
    cases b <;> refine ⟨?_, ?_, ?_⟩ <;> simp [stopActs, tryWaitKill, procWait5]
  · intro p hp a ha
    simp only [cleanupActs, hp]
    exact List.mem_append_right _ ha
  · intro p hp a ha
    simp only [cleanupActs, hp]
    exact List.mem_append_left _ ha

/-- C8 witness: a Redis process that ignores `terminate()` is killed after
the grace bound, with the terminate action preceding the kill. -/
theorem cleanup_graceful_then_kill_never_raises_witness :
    stopActs ProcId.redis { exitsWithinGrace := false }
      = [CleanupAct.stopMsg ProcId.redis, CleanupAct.terminate ProcId.redis,
         CleanupAct.kill ProcId.redis] :=
  ((cleanup_graceful_then_kill_never_raises initGlobals).2.1 ProcId.redis
    { exitsWithinGrace := false }).2.1 rfl

/-- C9: the `--allowedTools` argument handed to the client tool is the
hard-coded constant `allowedTools`, at the same fixed position of the
command vector for every prompt, config path and working directory; hence
any two invocations receive the identical allow-list. -/
theorem allowlist_constant (p1 c1 : String) (w1 : Option String)
    (p2 c2 : String) (w2 : Option String) :
    (claudeCmd p1 c1 w1)[6]? = some allowedTools ∧
    (claudeCmd p1 c1 w1)[6]? = (claudeCmd p2 c2 w2)[6]? := by
  have key : ∀ (p c : String) (wd : Option String),
      (claudeCmd p c wd)[6]? = some allowedTools := by
    intro p c wd
    rw [claudeCmd, List.getElem?_append_left (by simp)]
    rfl
  exact ⟨key p1 c1 w1, (key p1 c1 w1).trans (key p2 c2 w2).symm⟩

/-- C10: the `mcp_process` global is never assigned after its
initialization to `None`: at interpreter exit it is still `none` in every
world, and consequently no execution of the `cleanup` body ever stops,
terminates or kills an MCP-server process — only the Redis child is ever
acted on. -/
theorem mcp_process_never_assigned (w : World) :
    (globalsAtExit w).mcp_process = none ∧
    traceStopsMcp (processRun w).1 = false := by
  cases hr : reachesClientB w with
  | false =>
      obtain ⟨tr, hsp, hpre⟩ := setupPhase_not_reaches w hr
      have h0 : tr.any evStopsMcp = false := any_pre_false _ pre_not_stopsMcp tr hpre
      constructor
      · simp [globalsAtExit, mainRun, hsp, initGlobals]
      · simp [processRun, mainRun, hsp, traceStopsMcp, List.any_append, h0, evStopsMcp,
          cleanupActs, initGlobals]
  | true =>
      obtain ⟨prompt, e, hp, hsp⟩ := setupPhase_of_reaches w hr
      have hg : ((start_redis w initGlobals).2).mcp_process = none := by
        rw [start_redis_mcp]; simp [initGlobals]
      have h0 : (setupTrace w).any evStopsMcp = false :=
        any_pre_false _ pre_not_stopsMcp _ (setupTrace_pre w)
      have hcl : (cleanupActs (start_redis w initGlobals).2).any actTargetsMcp = false :=
        cleanupActs_no_mcp _ hg
      constructor
      · cases hs : w.signalDuringClient <;> simp [globalsAtExit, mainRun, hsp, hs, hg]
      · cases hs : w.signalDuringClient <;>
          simp [processRun, mainRun, hsp, hs, traceStopsMcp, List.any_append, h0,
            evStopsMcp, hcl, create_mcp_config]

end Zen
